import Mathlib

/-!
Verification of the Landalytics backend core (`main.py`): the sliding-window
rate limiter, signal extraction and reconciliation, the heuristic scoring
engine, goal weighting, and the two-phase result stream.

The Python code is shallowly embedded: machine floats used as wall-clock
timestamps and goal multipliers are modelled as exact rationals, Python
`int()` truncation is `pyInt`, and Python exceptions are modelled by
`Option` (with `none` for a raised exception).  Python string operations
(`in`, `strip`, `split`, slicing, `lower`, and `re.search` applied to
alternations of literal patterns) are implemented structurally over the
character list of a string, so that every definition evaluates on concrete
inputs.
-/

set_option maxRecDepth 8000

/-! ## Python string primitives -/

/-- Python string length `len(s)` (number of characters). -/
def pyLen (s : String) : Nat := s.data.length

/-- Python slicing `s[:n]`. -/
def pyTake (s : String) (n : Nat) : String := ⟨s.data.take n⟩

/-- Python `s.lower()` (ASCII case folding). -/
def pyLower (s : String) : String := ⟨s.data.map Char.toLower⟩

/-- The ASCII whitespace characters recognised by Python `str.strip` and
`str.split` and by `\s` in the regular expressions of the source. -/
def pyIsSpace (c : Char) : Bool :=
  c = ' ' || c = '\t' || c = '\n' || c = '\r' || c = '\x0b' || c = '\x0c'

/-- Python `s.strip()`. -/
def pyStrip (s : String) : String :=
  ⟨((s.data.dropWhile pyIsSpace).reverse.dropWhile pyIsSpace).reverse⟩

/-- Python `s.lstrip(chars)` for a character set given as a predicate. -/
def pyLStrip (s : String) (p : Char → Bool) : String := ⟨s.data.dropWhile p⟩

/-- Python `s.startswith(pre)`. -/
def startsWithStr (s pre : String) : Bool := pre.data.isPrefixOf s.data

/-- Python substring test `needle in hay` (also used for `re.search` applied
to an alternation of literal patterns). -/
def containsSubstr (hay needle : String) : Bool :=
  hay.data.tails.any (fun t => needle.data.isPrefixOf t)

/-- Worker for `pySplitOn`: split a character list on a non-empty separator,
left to right, non-overlapping; `fuel` bounds the recursion and is chosen
larger than the input. -/
def splitOnFuel (sep : List Char) : Nat → List Char → List Char → List (List Char)
  | 0, l, acc => [acc.reverse ++ l]
  | _ + 1, [], acc => [acc.reverse]
  | fuel + 1, c :: rest, acc =>
    if sep.isPrefixOf (c :: rest) then
      acc.reverse :: splitOnFuel sep fuel ((c :: rest).drop sep.length) []
    else
      splitOnFuel sep fuel rest (c :: acc)

/-- Python `s.split(sep)` for a non-empty separator string. -/
def pySplitOn (s sep : String) : List String :=
  (splitOnFuel sep.data (s.data.length + 1) s.data []).map (fun l => ⟨l⟩)

/-- Split a character list at every character satisfying `p`, keeping empty
pieces (the behaviour of splitting on a single-character class). -/
def splitPred (p : Char → Bool) : List Char → List Char → List (List Char)
  | [], acc => [acc.reverse]
  | c :: rest, acc =>
    if p c then acc.reverse :: splitPred p rest [] else splitPred p rest (c :: acc)

def pySplitPred (s : String) (p : Char → Bool) : List String :=
  (splitPred p s.data []).map (fun l => ⟨l⟩)

/-- Python `s.split()` with no argument: split on whitespace runs, dropping
empty pieces. -/
def pyWords (s : String) : List String :=
  (pySplitPred s pyIsSpace).filter (fun w => w ≠ "")

/-- `len(s.split())` as used for word counting throughout the scraper. -/
def wordCount (s : String) : Nat := (pyWords s).length

/-- Python `sep.join(l)`. -/
def pyJoin (sep : String) : List String → String
  | [] => ""
  | x :: rest => rest.foldl (fun acc y => acc ++ sep ++ y) x

/-- Python `a or b` for strings: `b` when `a` is empty. -/
def orStr (a b : String) : String := if a = "" then b else a

/-- Python `int()` on a rational: truncation toward zero. -/
def pyInt (q : ℚ) : ℤ := if 0 ≤ q then Rat.floor q else -(Rat.floor (-q))

/-- Mathematical ceiling on a rational, used to state the spec formula
`ceil(oldest + window - now)`. -/
def ratCeil (q : ℚ) : ℤ := -(Rat.floor (-q))

/-- The final clamp `min(100, max(5, score))` shared by the scoring
functions. -/
def clampScore (x : ℤ) : ℤ := min 100 (max 5 x)

/-! ## RateLimiter (`main.py` lines 71-95)

`time.time()` timestamps are modelled as rationals.  `is_allowed` returns
`none` when the Python code would raise (the `self._store[key][0]` access on
an empty list), and otherwise `some` of the `(allowed, retry_after)` pair
together with the updated limiter state. -/

structure RateLimiter where
  max_requests : ℤ
  window : ℚ
  store : String → List ℚ

/-- The eviction `[t for t in timestamps if t > window_start]`. -/
def evict (l : List ℚ) (cutoff : ℚ) : List ℚ := l.filter (fun t => decide (cutoff < t))

/-- Assignment `self._store[key] = l`. -/
def RateLimiter.setStore (rl : RateLimiter) (key : String) (l : List ℚ) : RateLimiter :=
  { rl with store := fun k => if k = key then l else rl.store k }

/-- `RateLimiter.is_allowed(key)` at wall-clock time `now`. -/
def is_allowed (rl : RateLimiter) (key : String) (now : ℚ) :
    Option ((Bool × ℤ) × RateLimiter) :=
  if rl.max_requests ≤ ((evict (rl.store key) (now - rl.window)).length : ℤ) then
    match evict (rl.store key) (now - rl.window) with
    | [] => none
    | t0 :: rest =>
      some ((false, pyInt (t0 + rl.window - now) + 1), rl.setStore key (t0 :: rest))
  else
    some ((true, 0),
      rl.setStore key (evict (rl.store key) (now - rl.window) ++ [now]))

/-- The `(allowed, retry_after)` pair of a call, `none` when it raises. -/
def callResult (rl : RateLimiter) (key : String) (now : ℚ) : Option (Bool × ℤ) :=
  (is_allowed rl key now).map Prod.fst

/-- The limiter state after a call (unchanged when the call raises; no
theorem below depends on the post-raise store). -/
def callState (rl : RateLimiter) (key : String) (now : ℚ) : RateLimiter :=
  ((is_allowed rl key now).map Prod.snd).getD rl

/-- A fresh limiter: `RateLimiter(max_requests, window_seconds)` with the
empty `defaultdict` store. -/
def initRL (N : ℤ) (W : ℚ) : RateLimiter := ⟨N, W, fun _ => []⟩

/-- Run a sequence of calls `(key, time)` through the limiter, recording for
each call whether it was admitted.  A raised exception aborts the run. -/
def runCalls : RateLimiter → List (String × ℚ) → RateLimiter × List (String × ℚ × Bool)
  | rl, [] => (rl, [])
  | rl, (k, t) :: rest =>
    match is_allowed rl k t with
    | none => (rl, [])
    | some (br, rl2) =>
      let p := runCalls rl2 rest
      (p.1, (k, t, br.1) :: p.2)

/-- The admission times recorded for a given key in a run. -/
def admittedFor (k : String) (rs : List (String × ℚ × Bool)) : List ℚ :=
  rs.filterMap (fun r => if r.1 = k ∧ r.2.2 = true then some r.2.1 else none)

/-- Modelled from the spec: `retry_after = ceil(oldest_surviving_timestamp +
window − now)`, floor 1 second (section 4.1); the code for this formula is
`int(...) + 1` at `main.py` line 91, to be compared against this. -/
def spec_retry_after (oldest window now : ℚ) : ℤ := max (ratCeil (oldest + window - now)) 1

/-! ## PageSignals and signal extraction (`main.py` lines 432-574) -/

/-- The canonical signal record (the dict returned by `extract_signals` /
`_signals_from_html`). -/
structure PageSignals where
  h1 : String
  h2s : List String
  h3s : List String
  title : String
  meta_description : String
  body_copy : String
  cta_texts : List String
  img_count : Nat
  alt_texts : List String
  has_form : Bool
  input_types : List String
  nav_links : List String
  total_links : Nat
  has_schema : Bool
  has_viewport : Bool
  viewport_content : String
  page_text : String
deriving DecidableEq

/-- The defined empty record returned when both representations are missing
(`main.py` lines 478-487). -/
def emptyNoContentSignals : PageSignals :=
  { h1 := "No Content", h2s := [], h3s := [], title := "",
    meta_description := "", body_copy := "", cta_texts := [],
    img_count := 0, alt_texts := [], has_form := false,
    input_types := [], nav_links := [], total_links := 0,
    has_schema := false, has_viewport := true,
    viewport_content := "width=device-width, initial-scale=1",
    page_text := "" }

/-- An entry of the Jina `links` array: either a JSON object (whose `text`
field defaults to the empty string) or another JSON value, read through
`str(...)`. -/
inductive JLink
  | obj (text : String)
  | str (s : String)
deriving DecidableEq

def JLink.getText : JLink → String
  | .obj t => t
  | .str s => s

/-- An entry of the Jina `images` array: a JSON object (whose `alt` field
defaults to empty) or another value, read as `""`. -/
inductive JImage
  | obj (alt : String)
  | other
deriving DecidableEq

def JImage.getAlt : JImage → String
  | .obj a => a
  | .other => ""

/-- The Jina Reader JSON payload, restricted to the fields `extract_signals`
reads.  A missing field is `none` / `[]`; the Jina API returns the `links`
and `images` fields as arrays, so the dead `isinstance(..., list)` fallback
branches (regex extraction from the markdown) are outside the model.  An
empty (falsy) payload dict is `none` at the `Option JinaData` level. -/
structure JinaData where
  title : Option String
  description : Option String
  content : Option String
  text : Option String
  links : List JLink
  images : List JImage
deriving DecidableEq

def JinaData.empty : JinaData := ⟨none, none, none, none, [], []⟩

/-- `jina_data.get("content", "") or jina_data.get("text", "") or ""`. -/
def jinaContentRaw (j : JinaData) : String := orStr (j.content.getD "") (j.text.getD "")

/-- The same on a possibly-empty payload. -/
def jinaContentOf (jo : Option JinaData) : String := jinaContentRaw (jo.getD JinaData.empty)

/-- `(jina_data.get("title") or "")[:120].strip()`. -/
def jinaTitleRaw (j : JinaData) : String := pyStrip (pyTake (j.title.getD "") 120)

def jinaLines (j : JinaData) : List String := pySplitOn (jinaContentRaw j) "\n"

/-- `l.lstrip("# ").strip()[:cap]`. -/
def stripHeading (l : String) (cap : Nat) : String :=
  pyTake (pyStrip (pyLStrip l (fun c => c = '#' || c = ' '))) cap

def jinaH1Lines (j : JinaData) : List String :=
  ((jinaLines j).filter (fun l => startsWithStr l "# " && !(startsWithStr l "## "))).map
    (fun l => stripHeading l 120)

def jinaH2Lines (j : JinaData) : List String :=
  ((jinaLines j).filter (fun l => startsWithStr l "## " && !(startsWithStr l "### "))).map
    (fun l => stripHeading l 80)

def jinaH3Lines (j : JinaData) : List String :=
  ((jinaLines j).filter (fun l => startsWithStr l "### ")).map (fun l => stripHeading l 80)

/-- `h1_text = h1_lines[0] if h1_lines else (title_text if title_text else "No H1 Found")`. -/
def jinaH1 (j : JinaData) : String :=
  match jinaH1Lines j with
  | x :: _ => x
  | [] => if jinaTitleRaw j ≠ "" then jinaTitleRaw j else "No H1 Found"

/-- `if not title_text: title_text = h1_text if h1_text != "No H1 Found" else ""`. -/
def jinaTitle (j : JinaData) : String :=
  if jinaTitleRaw j = "" then (if jinaH1 j ≠ "No H1 Found" then jinaH1 j else "")
  else jinaTitleRaw j

/-- `text_lower = content_text.lower()[:8000]`. -/
def jinaTextLower (j : JinaData) : String := pyTake (pyLower (jinaContentRaw j)) 8000

def jinaBodyLines (j : JinaData) : List String :=
  (((jinaLines j).filter (fun l =>
      pyStrip l ≠ "" && !(startsWithStr l "#") && !(startsWithStr l "[")
        && !(startsWithStr l "!") && 40 < pyLen (pyStrip l))).map pyStrip).take 5

def jinaBody (j : JinaData) : String := pyTake (pyJoin " | " (jinaBodyLines j)) 600

def jinaLinkTexts (j : JinaData) : List String :=
  (j.links.filter (fun l => pyStrip l.getText ≠ "")).map (fun l => pyTake l.getText 40)

/-- `list(set(t for t in link_texts if 2 < len(t) < 40))[:8]`; Python set
iteration order is unspecified, canonicalised here with `List.dedup`. -/
def jinaCtaTexts (j : JinaData) : List String :=
  (((jinaLinkTexts j).filter (fun t => 2 < pyLen t && pyLen t < 40)).dedup).take 8

def jinaNavLinks (j : JinaData) : List String :=
  ((((jinaLinkTexts j).take 15).filter (fun t => 2 < pyLen t && pyLen t < 30)).dedup).take 8

def jinaAltTexts (j : JinaData) : List String :=
  ((j.images.filter (fun i => i.getAlt ≠ "")).map (fun i => pyTake i.getAlt 80)).take 5

def form_kws : List String :=
  ["subscribe", "sign up", "email", "submit", "get started", "name", "phone", "contact"]

def jinaHasForm (j : JinaData) : Bool :=
  2 ≤ form_kws.countP (fun kw => containsSubstr (jinaTextLower j) kw)

def jinaInputTypes (j : JinaData) : List String :=
  (if containsSubstr (jinaTextLower j) "email" then ["email"] else [])
    ++ (if containsSubstr (jinaTextLower j) "phone" then ["tel"] else [])
    ++ (if containsSubstr (jinaTextLower j) "name" then ["text"] else [])
    ++ (if containsSubstr (jinaTextLower j) "password" then ["password"] else [])

/-- `re.search(r"schema\.org|ld\+json|itemtype", content_text, re.IGNORECASE)`:
an alternation of literals, case-insensitive. -/
def jinaHasSchema (j : JinaData) : Bool :=
  containsSubstr (pyLower (jinaContentRaw j)) "schema.org"
    || containsSubstr (pyLower (jinaContentRaw j)) "ld+json"
    || containsSubstr (pyLower (jinaContentRaw j)) "itemtype"

/-- The Jina-JSON branch of `extract_signals` (`main.py` lines 495-574). -/
def jinaSignals (j : JinaData) : PageSignals :=
  { h1 := jinaH1 j, h2s := (jinaH2Lines j).take 5, h3s := (jinaH3Lines j).take 5,
    title := jinaTitle j, meta_description := pyStrip (pyTake (j.description.getD "") 200),
    body_copy := jinaBody j, cta_texts := jinaCtaTexts j,
    img_count := j.images.length, alt_texts := jinaAltTexts j,
    has_form := jinaHasForm j, input_types := jinaInputTypes j,
    nav_links := jinaNavLinks j, total_links := j.links.length,
    has_schema := jinaHasSchema j, has_viewport := true,
    viewport_content := "width=device-width, initial-scale=1",
    page_text := jinaTextLower j }

/-- The parsed HTML document as `_signals_from_html` observes it through
BeautifulSoup (an external library, whose parse `String → Soup` is therefore
a parameter below): stripped texts of the tags the function queries. -/
structure Soup where
  h1Text : Option String
  h2Texts : List String
  h3Texts : List String
  titleText : Option String
  metaDescContent : Option String
  pTexts : List String
  linkButtonTexts : List String
  imgAlts : List (Option String)
  hasFormTag : Bool
  inputTypeAttrs : List String
  navLinkTexts : List String
  aTagCount : Nat
  fullText : String
  hasLdJson : Bool
  viewportContent : Option String
deriving DecidableEq

def htmlH1 (s : Soup) : String :=
  match s.h1Text with
  | some t => pyTake t 120
  | none => "No H1 Found"

def htmlTitle (s : Soup) : String :=
  match s.titleText with
  | some t => pyTake t 120
  | none => htmlH1 s

/-- `_signals_from_html` (`main.py` lines 432-469) over the parsed document. -/
def signals_from_html_soup (s : Soup) : PageSignals :=
  { h1 := htmlH1 s,
    h2s := (s.h2Texts.map (fun t => pyTake t 80)).take 5,
    h3s := (s.h3Texts.map (fun t => pyTake t 80)).take 5,
    title := htmlTitle s,
    meta_description := (match s.metaDescContent with | some c => pyTake c 200 | none => ""),
    body_copy := pyTake (pyJoin " | " ((s.pTexts.filter (fun t => 40 < pyLen t)).take 5)) 600,
    cta_texts := ((s.linkButtonTexts.filter
      (fun t => 2 < pyLen t && pyLen t < 40)).dedup).take 8,
    img_count := s.imgAlts.length,
    alt_texts := (((s.imgAlts.map (fun a => pyStrip (a.getD ""))).filter
      (fun a => a ≠ "")).map (fun a => pyTake a 80)).take 5,
    has_form := s.hasFormTag,
    input_types := s.inputTypeAttrs,
    nav_links := (s.navLinkTexts.map (fun t => pyTake t 40)).take 8,
    total_links := s.aTagCount,
    has_schema := s.hasLdJson,
    has_viewport := s.viewportContent.isSome,
    viewport_content := (match s.viewportContent with | some c => pyTake c 100 | none => ""),
    page_text := pyTake (pyLower s.fullText) 8000 }

def signals_from_html (parse_html : String → Soup) (html : String) : PageSignals :=
  signals_from_html_soup (parse_html html)

/-- `extract_signals(jina_data, html)` (`main.py` lines 471-574),
parameterised by the external BeautifulSoup parse. -/
def extract_signals (parse_html : String → Soup) (jina_data : Option JinaData)
    (html : String) : PageSignals :=
  if jina_data = none ∧ html = "" then emptyNoContentSignals
  else if html ≠ "" ∧ wordCount (jinaContentOf jina_data) < wordCount html then
    signals_from_html parse_html html
  else jinaSignals (jina_data.getD JinaData.empty)

/-! ## Goal weights (`main.py` lines 582-711) -/

/-- `GOAL_WEIGHTS` (multipliers, Python floats modelled as exact decimals). -/
def GOAL_WEIGHTS : String → List (String × ℚ)
  | "ab_testing" =>
    [("conversion_intent", 1.4), ("readability", 1.3), ("multimedia", 1.2),
     ("content_depth", 1.1), ("schema_markup", 0.6)]
  | "cart_abandonment" =>
    [("trust_resonance", 1.5), ("conversion_intent", 1.4), ("readability", 1.2),
     ("internal_links", 1.1), ("heading_hierarchy", 0.7), ("schema_markup", 0.6)]
  | "cro" =>
    [("conversion_intent", 1.5), ("trust_resonance", 1.3), ("readability", 1.2),
     ("search_intent", 1.2), ("content_depth", 1.1), ("schema_markup", 0.8)]
  | "customer_engagement" =>
    [("content_depth", 1.5), ("readability", 1.4), ("multimedia", 1.4),
     ("internal_links", 1.3), ("search_intent", 1.1), ("https_ssl", 0.7)]
  | "cx_optimization" =>
    [("readability", 1.5), ("mobile_readiness", 1.4), ("internal_links", 1.3),
     ("conversion_intent", 1.2), ("trust_resonance", 1.2), ("schema_markup", 0.6)]
  | "customer_retention" =>
    [("trust_resonance", 1.5), ("content_depth", 1.3), ("search_intent", 1.3),
     ("readability", 1.2), ("conversion_intent", 1.1), ("title_tag", 0.7),
     ("schema_markup", 0.5)]
  | "feature_rollout" =>
    [("content_depth", 1.4), ("readability", 1.4), ("heading_hierarchy", 1.3),
     ("multimedia", 1.3), ("conversion_intent", 1.2), ("https_ssl", 0.7),
     ("schema_markup", 0.6)]
  | "grow_traffic" =>
    [("semantic_authority", 1.5), ("heading_hierarchy", 1.4), ("meta_description", 1.4),
     ("content_depth", 1.4), ("keyword_placement", 1.4), ("title_tag", 1.3),
     ("schema_markup", 1.3), ("https_ssl", 1.2), ("conversion_intent", 0.5),
     ("trust_resonance", 0.7)]
  | "landing_page_optimization" =>
    [("conversion_intent", 1.5), ("trust_resonance", 1.4), ("readability", 1.3),
     ("search_intent", 1.3), ("multimedia", 1.2), ("schema_markup", 0.6),
     ("internal_links", 0.7)]
  | "multivariate_testing" =>
    [("conversion_intent", 1.4), ("content_depth", 1.3), ("multimedia", 1.3),
     ("readability", 1.2), ("heading_hierarchy", 1.2), ("schema_markup", 0.5)]
  | "website_optimization" =>
    [("mobile_readiness", 1.4), ("semantic_authority", 1.3), ("content_depth", 1.2),
     ("https_ssl", 1.2), ("readability", 1.2), ("heading_hierarchy", 1.1),
     ("schema_markup", 1.1)]
  | "personalization" =>
    [("search_intent", 1.5), ("content_depth", 1.3), ("conversion_intent", 1.3),
     ("trust_resonance", 1.2), ("multimedia", 1.2), ("schema_markup", 0.6),
     ("keyword_placement", 0.7)]
  | "website_redesign" =>
    [("mobile_readiness", 1.5), ("readability", 1.4), ("heading_hierarchy", 1.3),
     ("multimedia", 1.3), ("conversion_intent", 1.2), ("trust_resonance", 1.2),
     ("content_depth", 1.1)]
  | _ => []

/-- `weighted[key] = min(100, max(5, int(weighted[key] * multiplier)))` on an
association list modelling the Python dict (keys are unique, update in
place). -/
def pyDictMapAt (scores : List (String × ℤ)) (key : String) (f : ℤ → ℤ) :
    List (String × ℤ) :=
  scores.map (fun kv => if kv.1 = key then (kv.1, f kv.2) else kv)

def containsKey (scores : List (String × ℤ)) (key : String) : Bool :=
  scores.any (fun kv => kv.1 = key)

/-- One iteration of the loop in `apply_goal_weights`:
`if key in weighted and key != "page_speed": weighted[key] = min(100, max(5,
int(weighted[key] * multiplier)))`. -/
def agwStep (acc : List (String × ℤ)) (kv : String × ℚ) : List (String × ℤ) :=
  if containsKey acc kv.1 ∧ kv.1 ≠ "page_speed" then
    pyDictMapAt acc kv.1 (fun v => clampScore (pyInt ((v : ℚ) * kv.2)))
  else acc

/-- `apply_goal_weights` (`main.py` lines 698-711). -/
def apply_goal_weights (scores : List (String × ℤ)) (goal : String) : List (String × ℤ) :=
  let weights := GOAL_WEIGHTS goal
  if weights = [] then scores
  else weights.foldl agwStep scores

/-! ## Scoring functions (`main.py` lines 716-1011) -/

def score_https_ssl (url : String) : ℤ := if startsWithStr url "https://" then 90 else 10

def score_title_tag (sig : PageSignals) : ℤ :=
  if sig.title = "" then 25
  else
    clampScore (40
      + (if 30 ≤ pyLen sig.title ∧ pyLen sig.title ≤ 60 then 35
         else if (20 ≤ pyLen sig.title ∧ pyLen sig.title < 30)
             ∨ (60 < pyLen sig.title ∧ pyLen sig.title ≤ 70) then 20
         else 10)
      + (if ["|", "-", ":"].any (fun sep => containsSubstr sig.title sep) then 15 else 0)
      - (if pyStrip (pyLower sig.title) ∈ ["home", "welcome", "untitled", "index"]
         then 20 else 0))

def score_heading_hierarchy (sig : PageSignals) : ℤ :=
  clampScore (20
    + (if sig.h1 ≠ "" ∧ sig.h1 ≠ "No H1 Found" then 35 else 0)
    + (if sig.h2s ≠ [] then 25 + (if 3 ≤ sig.h2s.length then 10 else 0) else 0)
    + (if sig.h3s ≠ [] then 10 else 0))

def score_content_depth (sig : PageSignals) : ℤ :=
  clampScore ((if 800 ≤ wordCount sig.page_text then 50
      else if 400 ≤ wordCount sig.page_text then 35
      else if 200 ≤ wordCount sig.page_text then 20
      else if 100 ≤ wordCount sig.page_text then 10 else 2)
    + min 30 (6 * ((sig.h2s.length + sig.h3s.length : ℕ) : ℤ))
    + (if sig.body_copy ≠ "" then 20 else 0))

def score_schema_markup (sig : PageSignals) : ℤ :=
  if sig.has_schema then 90
  else if containsSubstr sig.page_text "schema.org" || containsSubstr sig.page_text "ld+json"
      || containsSubstr sig.page_text "itemtype" then 70
  else 30

def score_readability (sig : PageSignals) : ℤ :=
  if sig.body_copy = "" then 20
  else
    clampScore (30
      + (if ((pySplitPred sig.body_copy (fun c => c = '.' || c = '!' || c = '?')).map
            pyStrip).filter (fun s => 10 < pyLen s) ≠ [] then
           (if avgSentenceWords sig.body_copy ≤ 15 then 40
            else if avgSentenceWords sig.body_copy ≤ 20 then 30
            else if avgSentenceWords sig.body_copy ≤ 25 then 15 else 5)
         else 0)
      + min 20 (5 * (((pySplitOn sig.body_copy "|").countP
          (fun l => pyStrip l ≠ "") : ℕ) : ℤ))
      - (if 400 < pyLen sig.body_copy ∧ ¬ containsSubstr sig.body_copy "|" then 10 else 0))
where
  /-- `sum(len(s.split()) for s in sentences) / len(sentences)` over the
  sentences (split on `[.!?]+`, stripped, longer than 10 characters). -/
  avgSentenceWords (body : String) : ℚ :=
    let sentences := ((pySplitPred body (fun c => c = '.' || c = '!' || c = '?')).map
      pyStrip).filter (fun s => 10 < pyLen s)
    ((sentences.map wordCount).sum : ℚ) / (sentences.length : ℚ)

def action_words : List String :=
  ["learn", "discover", "get", "find", "try", "start", "boost", "improve", "save", "free"]

def score_meta_description (sig : PageSignals) : ℤ :=
  if sig.meta_description = "" then 20
  else
    clampScore (30
      + (if 120 ≤ pyLen sig.meta_description ∧ pyLen sig.meta_description ≤ 160 then 40
         else if 80 ≤ pyLen sig.meta_description ∧ pyLen sig.meta_description < 120 then 25
         else if 0 < pyLen sig.meta_description ∧ pyLen sig.meta_description < 80 then 10
         else 0)
      + min 30 (8 * ((action_words.countP
          (fun w => containsSubstr (pyLower sig.meta_description) w) : ℕ) : ℤ)))

def score_image_alt_text (sig : PageSignals) : ℤ :=
  if sig.img_count = 0 then 50
  else
    if (0.9 : ℚ) ≤ (sig.alt_texts.length : ℚ) / (sig.img_count : ℚ) then 90
    else if (0.7 : ℚ) ≤ (sig.alt_texts.length : ℚ) / (sig.img_count : ℚ) then 70
    else if (0.5 : ℚ) ≤ (sig.alt_texts.length : ℚ) / (sig.img_count : ℚ) then 55
    else if (0.3 : ℚ) ≤ (sig.alt_texts.length : ℚ) / (sig.img_count : ℚ) then 40
    else if (0.1 : ℚ) ≤ (sig.alt_texts.length : ℚ) / (sig.img_count : ℚ) then 30
    else 20

def score_internal_links (sig : PageSignals) : ℤ :=
  clampScore ((if 10 ≤ sig.total_links then 35 else if 5 ≤ sig.total_links then 25
      else if 2 ≤ sig.total_links then 15 else 5)
    + (if 5 ≤ sig.nav_links.length then 35 else if 3 ≤ sig.nav_links.length then 25
       else if 1 ≤ sig.nav_links.length then 15 else 0)
    - (if 100 < sig.total_links then 15 else 0))

/-- `set(w for w in h1.split() if len(w) > 4)` (iteration over a set of
words; only the count of distinct elements is used downstream). -/
def h1Keywords (sig : PageSignals) : List String :=
  ((pyWords (pyLower sig.h1)).filter (fun w => 4 < pyLen w)).dedup

def score_keyword_placement (sig : PageSignals) : ℤ :=
  if h1Keywords sig = [] then 20
  else
    clampScore (20
      + min 30 (10 * (((h1Keywords sig).countP
          (fun w => containsSubstr (pyLower sig.title) w) : ℕ) : ℤ))
      + min 30 (8 * (((h1Keywords sig).countP
          (fun w => containsSubstr (pyTake (pyLower sig.body_copy) 200) w) : ℕ) : ℤ))
      + (if h1Keywords sig ≠ []
            ∧ (h1Keywords sig).any (fun w => containsSubstr (pyLower sig.title) w)
         then 20 else 0))

def score_multimedia (sig : PageSignals) : ℤ :=
  clampScore ((if 5 ≤ sig.img_count then 40 else if 3 ≤ sig.img_count then 30
      else if 1 ≤ sig.img_count then 20 else 0)
    + (if ["video", "youtube", "vimeo", "wistia", "loom", "webinar", "watch"].any
          (fun p => containsSubstr sig.page_text p) then 30 else 0)
    + (if ["infographic", "chart", "graph", "diagram", "illustration"].any
          (fun p => containsSubstr sig.page_text p) then 20 else 0)
    + (if ["calculator", "quiz", "tool", "interactive", "demo"].any
          (fun p => containsSubstr sig.page_text p) then 10 else 0))

def intent_keywords : String → List String
  | "cro" => ["get started", "sign up", "try", "buy", "convert", "optimize", "cta", "offer"]
  | "landing_page_optimization" =>
    ["get started", "try free", "download", "claim", "sign up", "access", "offer"]
  | "ab_testing" => ["test", "experiment", "variant", "hypothesis", "optimize", "improve"]
  | "multivariate_testing" =>
    ["test", "headline", "button", "variation", "experiment", "combination"]
  | "cart_abandonment" => ["cart", "buy", "checkout", "order", "purchase", "payment", "price"]
  | "customer_engagement" =>
    ["community", "comment", "share", "follow", "join", "interact", "discuss"]
  | "cx_optimization" => ["support", "easy", "fast", "simple", "seamless", "help", "experience"]
  | "customer_retention" =>
    ["account", "member", "loyalty", "reward", "renew", "subscription", "stay"]
  | "feature_rollout" =>
    ["new", "update", "launch", "introducing", "available", "feature", "release"]
  | "grow_traffic" => ["read", "blog", "guide", "learn", "seo", "search", "traffic", "discover"]
  | "website_optimization" =>
    ["fast", "speed", "performance", "mobile", "optimized", "core", "vitals"]
  | "personalization" =>
    ["for you", "recommended", "tailored", "custom", "personal", "based on"]
  | "website_redesign" =>
    ["new", "redesign", "updated", "modern", "improved", "fresh", "relaunch"]
  | _ => []

def score_search_intent (sig : PageSignals) (goal : String) : ℤ :=
  if intent_keywords goal = [] then 50
  else
    clampScore (10 + 9 * (((intent_keywords goal).countP (fun kw =>
      containsSubstr (sig.page_text ++ " " ++ pyLower sig.h1 ++ " " ++ pyLower sig.body_copy)
        kw) : ℕ) : ℤ))

def strong_kws : List String :=
  ["get started", "sign up", "try free", "buy now", "book", "start", "join",
   "subscribe", "download", "get", "request", "claim", "access"]

/-- `goal_signals` inside `score_conversion_intent`; `none` models a goal
missing from the dict. -/
def goal_signals : String → Option (List String)
  | "cart_abandonment" =>
    some ["cart", "checkout", "add to cart", "buy", "order", "payment", "abandon"]
  | "cro" => some ["get started", "sign up", "try", "buy", "convert", "optimize"]
  | "grow_traffic" =>
    some ["read", "blog", "article", "guide", "learn", "seo", "search", "traffic"]
  | "landing_page_optimization" =>
    some ["get started", "sign up", "try free", "download", "claim", "access"]
  | "customer_retention" =>
    some ["login", "account", "member", "loyalty", "reward", "renew", "subscription"]
  | "personalization" =>
    some ["for you", "recommended", "tailored", "custom", "based on", "personal"]
  | "customer_engagement" =>
    some ["comment", "share", "community", "join", "follow", "interact"]
  | "feature_rollout" =>
    some ["new", "update", "launch", "introducing", "now available", "feature"]
  | "ab_testing" => some ["test", "variant", "control", "hypothesis", "experiment", "cta"]
  | "multivariate_testing" =>
    some ["test", "headline", "image", "button", "variation", "combination"]
  | "website_redesign" =>
    some ["new look", "redesign", "updated", "fresh", "modern", "improved"]
  | "cx_optimization" =>
    some ["support", "help", "easy", "simple", "fast", "seamless", "friction"]
  | "website_optimization" =>
    some ["fast", "speed", "performance", "mobile", "optimized", "efficient"]
  | _ => none

def score_conversion_intent (sig : PageSignals) (goal : String) : ℤ :=
  clampScore (20
    + (if sig.has_form then
        25 + (if (sig.input_types.filter (fun i => i ≠ "hidden" ∧ i ≠ "submit")).length ≤ 3
              then 10 else 0)
       else 0)
    + min 25 (8 * (((sig.cta_texts.map (fun cta =>
        (strong_kws.filter (fun kw => containsSubstr (pyLower cta) kw)).length)).sum : ℕ) : ℤ))
    + min 15 (3 * ((strong_kws.countP (fun kw => containsSubstr sig.page_text kw) : ℕ) : ℤ))
    + (match goal_signals goal with
       | some ws => if ws.any (fun w => containsSubstr sig.page_text w) then 15 else 0
       | none => 0)
    + (if 3 ≤ sig.total_links then 5 else 0))

def trust_patterns : List String :=
  ["testimonial", "review", "rating", "trust", "certif", "award", "partner", "client",
   "guarantee", "secure", "ssl", "verified", "money back", "refund", "privacy", "gdpr",
   "compliance", "iso", "soc", "hipaa", "pci"]

/-- `re.search(r"\d{3,}[,\d]*\s*(customers?|users?|clients?|companies|brands?)", pt)`:
three or more digits, then digits or commas, then whitespace, then one of the
literal stems (the trailing `s?` makes each stem alone sufficient). -/
def socialProofAt : List Char → Bool
  | c1 :: c2 :: c3 :: rest =>
    if c1.isDigit && c2.isDigit && c3.isDigit then
      ["customer", "user", "client", "companies", "brand"].any
        (fun w => w.data.isPrefixOf
          ((rest.dropWhile (fun c => c.isDigit || c = ',')).dropWhile pyIsSpace))
    else false
  | _ => false

def socialProof (s : String) : Bool := (s.data.tails).any socialProofAt

def score_trust_resonance (sig : PageSignals) : ℤ :=
  clampScore (30
    + 4 * ((trust_patterns.countP (fun p => containsSubstr sig.page_text p) : ℕ) : ℤ)
    + (if socialProof sig.page_text then 12 else 0)
    + (if sig.has_schema then 8 else 0)
    + (if 2 < sig.alt_texts.length then 5 else 0)
    + (if ["ssl", "https", "secure", "encrypt"].any
          (fun p => containsSubstr sig.page_text p) then 5 else 0))

def score_mobile_readiness (sig : PageSignals) (page_speed : Option ℤ) : ℤ :=
  match page_speed with
  | some p => p
  | none =>
    clampScore (50
      + (if sig.has_viewport then
           20 + (if containsSubstr sig.viewport_content "width=device-width" then 15 else 0)
             + (if containsSubstr sig.viewport_content "initial-scale=1" then 10 else 0)
         else 0)
      + (if ["@media", "responsive", "mobile"].any
            (fun p => containsSubstr sig.page_text p) then 5 else 0))

def score_semantic_authority (sig : PageSignals) : ℤ :=
  clampScore (25
    + (if sig.h1 ≠ "" ∧ sig.h1 ≠ "No H1 Found" then 25 else 0)
    + (if sig.h2s ≠ [] then 18 else 0)
    + (if sig.h3s ≠ [] then 8 else 0)
    + (if sig.meta_description ≠ "" then
         12 + (if 50 ≤ pyLen sig.meta_description ∧ pyLen sig.meta_description ≤ 160
               then 6 else 0)
       else 0)
    + (if sig.title ≠ "" then
         8 + (if 30 ≤ pyLen sig.title ∧ pyLen sig.title ≤ 65 then 6 else 0)
       else 0)
    + (if sig.has_schema then 10 else 0)
    + (if 300 < wordCount sig.page_text then 5 else 0))

/-- The `scores` dict built in `analyze_site` (`main.py` lines 1053-1074),
in insertion order, with the optional `page_speed` entry. -/
def computeScores (sig : PageSignals) (url goal : String) (page_speed : Option ℤ) :
    List (String × ℤ) :=
  [("conversion_intent", score_conversion_intent sig goal),
   ("trust_resonance", score_trust_resonance sig),
   ("mobile_readiness", score_mobile_readiness sig page_speed),
   ("semantic_authority", score_semantic_authority sig),
   ("https_ssl", score_https_ssl url),
   ("title_tag", score_title_tag sig),
   ("heading_hierarchy", score_heading_hierarchy sig),
   ("content_depth", score_content_depth sig),
   ("schema_markup", score_schema_markup sig),
   ("readability", score_readability sig),
   ("meta_description", score_meta_description sig),
   ("image_alt_text", score_image_alt_text sig),
   ("internal_links", score_internal_links sig),
   ("keyword_placement", score_keyword_placement sig),
   ("multimedia", score_multimedia sig),
   ("search_intent", score_search_intent sig goal)]
    ++ (match page_speed with
        | some p => [("page_speed", p)]
        | none => [])

/-- The score set actually streamed to the client:
`scores = apply_goal_weights(scores, goal)` (`main.py` line 1077). -/
def emittedScores (sig : PageSignals) (url goal : String) (page_speed : Option ℤ) :
    List (String × ℤ) :=
  apply_goal_weights (computeScores sig url goal page_speed) goal

/-! ## Result stream (`main.py` lines 1079-1163)

The Groq narrative attempts are external calls; each attempt is modelled as
an `Option PyVal`: `none` when `run_groq` raised (any exception, including
`json.JSONDecodeError`), otherwise the parsed JSON value, of which the stream
logic observes only dict-ness and Python truthiness. -/

structure PyVal where
  isDict : Bool
  truthy : Bool
deriving DecidableEq

inductive StreamRecord
  | metrics (scores : List (String × ℤ))
  | ai_narrative
  | error
deriving DecidableEq

/-- The records produced after the metrics record: attempt 1, the conditional
retry (`if not ai_res or not isinstance(ai_res, dict)`), then
`if ai_res: yield ai_narrative else: yield error`.  Serialising
`{"type": "ai_narrative", **ai_res}` with a non-dict `ai_res` raises
`TypeError`, which the outer handler converts to the generic error record. -/
def narrative_records (a1 a2 : Option PyVal) : List StreamRecord :=
  let aiFinal :=
    match a1 with
    | some v => if !v.truthy || !v.isDict then a2 else some v
    | none => a2
  match aiFinal with
  | some v =>
    if v.truthy then
      (if v.isDict then [StreamRecord.ai_narrative] else [StreamRecord.error])
    else [StreamRecord.error]
  | none => [StreamRecord.error]

/-- The full record stream of one request. -/
def stream_records (scores : List (String × ℤ)) (a1 a2 : Option PyVal) :
    List StreamRecord :=
  StreamRecord.metrics scores :: narrative_records a1 a2

/-- The acceptance condition actually implemented: a truthy dict from attempt
1, else a truthy dict from attempt 2. -/
def finalNarrativeOk (a1 a2 : Option PyVal) : Bool :=
  match a1 with
  | some v =>
    if v.truthy && v.isDict then true
    else match a2 with
         | some w => w.truthy && w.isDict
         | none => false
  | none =>
    match a2 with
    | some w => w.truthy && w.isDict
    | none => false

/-! ## Concrete values used by witnesses and counterexamples -/

def soupDefault : Soup :=
  ⟨none, [], [], none, none, [], [], [], false, [], [], 0, "", false, none⟩

def phDefault : String → Soup := fun _ => soupDefault

/-- A Jina payload with a short (three-character) declared title and a
markdown level-one heading. -/
def jC7 : JinaData :=
  { title := some "abc", description := none,
    content := some "# My Heading\nsome body text here", text := none,
    links := [], images := [] }

/-- A parsed document carrying a `<title>` tag. -/
def soupTitled : Soup :=
  ⟨none, [], [], some "A Fine Landing Page", none, [], [], [], false, [], [], 0, "",
   false, none⟩

def rlC2 : RateLimiter := ⟨0, 60, fun _ => [1]⟩

def rlC5c : RateLimiter := ⟨1, 60, fun _ => [0]⟩

def rlC5w : RateLimiter := ⟨1, 60, fun _ => [1/2]⟩

def rlC4w : RateLimiter := ⟨1, 10, fun _ => [5]⟩

/-! ## General lemmas -/

theorem clampScore_bounds (x : ℤ) : 5 ≤ clampScore x ∧ clampScore x ≤ 100 := by
  unfold clampScore; omega

theorem ratFloor_le (q : ℚ) : (Rat.floor q : ℚ) ≤ q := Rat.le_floor.mp le_rfl

theorem lt_ratFloor_add_one (q : ℚ) : q < (Rat.floor q : ℚ) + 1 := by
  by_contra hc
  push_neg at hc
  have h2 : Rat.floor q + 1 ≤ Rat.floor q := by
    rw [Rat.le_floor]; push_cast; exact hc
  omega

theorem pyInt_of_nonneg {q : ℚ} (h : 0 ≤ q) : pyInt q = Rat.floor q := by
  unfold pyInt; rw [if_pos h]

theorem ratFloor_nonneg {q : ℚ} (h : 0 ≤ q) : 0 ≤ Rat.floor q := by
  rw [Rat.le_floor]; exact_mod_cast h

theorem ratFloor_eq_intFloor (q : ℚ) : Rat.floor q = ⌊q⌋ :=
  (Rat.floor_def' q).trans Rat.floor_def.symm

theorem ratFloor_neg_of_not_int {x : ℚ} (h : ∀ n : ℤ, x ≠ (n : ℚ)) :
    Rat.floor (-x) = -(Rat.floor x) - 1 := by
  have h1 : (Rat.floor x : ℚ) ≤ x := ratFloor_le x
  have h2 : x < (Rat.floor x : ℚ) + 1 := lt_ratFloor_add_one x
  have h1s : (Rat.floor x : ℚ) < x := lt_of_le_of_ne h1 (fun he => h (Rat.floor x) he.symm)
  apply le_antisymm
  · by_contra hc
    push_neg at hc
    have hle : -(Rat.floor x) ≤ Rat.floor (-x) := by omega
    rw [Rat.le_floor] at hle
    push_cast at hle
    linarith
  · rw [Rat.le_floor]; push_cast; linarith

theorem countP_le_countP {α : Type} {l : List α} {p q : α → Bool}
    (h : ∀ a ∈ l, p a = true → q a = true) : l.countP p ≤ l.countP q := by
  induction l with
  | nil => simp
  | cons a t ih =>
    have ht : ∀ a ∈ t, p a = true → q a = true := fun a ha => h a (List.mem_cons_of_mem _ ha)
    rw [List.countP_cons, List.countP_cons]
    by_cases hp : p a = true
    · rw [if_pos hp, if_pos (h a (List.mem_cons_self _ _) hp)]
      exact Nat.add_le_add (ih ht) le_rfl
    · rw [if_neg hp]
      have := ih ht
      split <;> omega

/-! ## Scoring bounds -/

theorem score_https_ssl_bounds (url : String) :
    5 ≤ score_https_ssl url ∧ score_https_ssl url ≤ 100 := by
  unfold score_https_ssl; split <;> omega

theorem score_title_tag_bounds (sig : PageSignals) :
    5 ≤ score_title_tag sig ∧ score_title_tag sig ≤ 100 := by
  unfold score_title_tag; split
  · omega
  · exact clampScore_bounds _

theorem score_heading_hierarchy_bounds (sig : PageSignals) :
    5 ≤ score_heading_hierarchy sig ∧ score_heading_hierarchy sig ≤ 100 := by
  unfold score_heading_hierarchy; exact clampScore_bounds _

theorem score_content_depth_bounds (sig : PageSignals) :
    5 ≤ score_content_depth sig ∧ score_content_depth sig ≤ 100 := by
  unfold score_content_depth; exact clampScore_bounds _

theorem score_schema_markup_bounds (sig : PageSignals) :
    5 ≤ score_schema_markup sig ∧ score_schema_markup sig ≤ 100 := by
  unfold score_schema_markup; split
  · omega
  · split <;> omega

theorem score_readability_bounds (sig : PageSignals) :
    5 ≤ score_readability sig ∧ score_readability sig ≤ 100 := by
  unfold score_readability; split
  · omega
  · exact clampScore_bounds _

theorem score_meta_description_bounds (sig : PageSignals) :
    5 ≤ score_meta_description sig ∧ score_meta_description sig ≤ 100 := by
  unfold score_meta_description; split
  · omega
  · exact clampScore_bounds _

theorem score_image_alt_text_bounds (sig : PageSignals) :
    5 ≤ score_image_alt_text sig ∧ score_image_alt_text sig ≤ 100 := by
  unfold score_image_alt_text
  split
  · omega
  · split_ifs <;> omega

theorem score_internal_links_bounds (sig : PageSignals) :
    5 ≤ score_internal_links sig ∧ score_internal_links sig ≤ 100 := by
  unfold score_internal_links; exact clampScore_bounds _

theorem score_keyword_placement_bounds (sig : PageSignals) :
    5 ≤ score_keyword_placement sig ∧ score_keyword_placement sig ≤ 100 := by
  unfold score_keyword_placement; split
  · omega
  · exact clampScore_bounds _

theorem score_multimedia_bounds (sig : PageSignals) :
    5 ≤ score_multimedia sig ∧ score_multimedia sig ≤ 100 := by
  unfold score_multimedia; exact clampScore_bounds _

theorem score_search_intent_bounds (sig : PageSignals) (goal : String) :
    5 ≤ score_search_intent sig goal ∧ score_search_intent sig goal ≤ 100 := by
  unfold score_search_intent; split
  · omega
  · exact clampScore_bounds _

theorem score_conversion_intent_bounds (sig : PageSignals) (goal : String) :
    5 ≤ score_conversion_intent sig goal ∧ score_conversion_intent sig goal ≤ 100 := by
  unfold score_conversion_intent; exact clampScore_bounds _

theorem score_trust_resonance_bounds (sig : PageSignals) :
    5 ≤ score_trust_resonance sig ∧ score_trust_resonance sig ≤ 100 := by
  unfold score_trust_resonance; exact clampScore_bounds _

theorem score_mobile_readiness_none_bounds (sig : PageSignals) :
    5 ≤ score_mobile_readiness sig none ∧ score_mobile_readiness sig none ≤ 100 := by
  unfold score_mobile_readiness; exact clampScore_bounds _

theorem score_semantic_authority_bounds (sig : PageSignals) :
    5 ≤ score_semantic_authority sig ∧ score_semantic_authority sig ≤ 100 := by
  unfold score_semantic_authority; exact clampScore_bounds _

/-! ## Goal weighting lemmas -/

theorem mem_pyDictMapAt {l : List (String × ℤ)} {key : String} {f : ℤ → ℤ}
    {kv : String × ℤ} (h : kv ∈ pyDictMapAt l key f) :
    kv ∈ l ∨ ∃ kv0 ∈ l, kv = (kv0.1, f kv0.2) := by
  unfold pyDictMapAt at h
  obtain ⟨kv0, hm, he⟩ := List.mem_map.mp h
  by_cases hk : kv0.1 = key
  · rw [if_pos hk] at he
    exact Or.inr ⟨kv0, hm, he.symm⟩
  · rw [if_neg hk] at he
    exact Or.inl (he ▸ hm)

theorem mem_agwStep {acc : List (String × ℤ)} {w : String × ℚ} {kv : String × ℤ}
    (h : kv ∈ agwStep acc w) : (5 ≤ kv.2 ∧ kv.2 ≤ 100) ∨ kv ∈ acc := by
  unfold agwStep at h
  split at h
  · rcases mem_pyDictMapAt h with hl | ⟨kv0, _, he⟩
    · exact Or.inr hl
    · refine Or.inl ?_
      rw [he]
      exact clampScore_bounds _
  · exact Or.inr h

theorem mem_agw_foldl {ws : List (String × ℚ)} :
    ∀ {scores : List (String × ℤ)} {kv : String × ℤ}, kv ∈ ws.foldl agwStep scores →
      (5 ≤ kv.2 ∧ kv.2 ≤ 100) ∨ kv ∈ scores := by
  induction ws with
  | nil => intro scores kv h; exact Or.inr h
  | cons w rest ih =>
    intro scores kv h
    rw [List.foldl_cons] at h
    rcases ih h with hb | hm
    · exact Or.inl hb
    · exact mem_agwStep hm

theorem mem_apply_goal_weights {scores : List (String × ℤ)} {goal : String}
    {kv : String × ℤ} (h : kv ∈ apply_goal_weights scores goal) :
    (5 ≤ kv.2 ∧ kv.2 ≤ 100) ∨ kv ∈ scores := by
  unfold apply_goal_weights at h
  dsimp only at h
  split at h
  · exact Or.inr h
  · exact mem_agw_foldl h

theorem lookup_pyDictMapAt_ne {l : List (String × ℤ)} {k key : String} {f : ℤ → ℤ}
    (h : k ≠ key) : List.lookup k (pyDictMapAt l key f) = List.lookup k l := by
  induction l with
  | nil => rfl
  | cons a rest ih =>
    unfold pyDictMapAt at ih ⊢
    rw [List.map_cons]
    by_cases hk : a.1 = key
    · rw [if_pos hk]
      have hne : (k == a.1) = false := by
        simp only [beq_eq_false_iff_ne]; exact fun he => h (he ▸ hk)
      rw [show a = (a.1, a.2) from rfl]
      simp only [List.lookup, hne]
      exact ih
    · rw [if_neg hk]
      rw [show a = (a.1, a.2) from rfl]
      simp only [List.lookup]
      cases hbe : (k == a.1)
      · exact ih
      · rfl

theorem lookup_agwStep_ne {acc : List (String × ℤ)} {w : String × ℚ} {k : String}
    (h : w.1 ≠ k) : List.lookup k (agwStep acc w) = List.lookup k acc := by
  unfold agwStep
  split
  · exact lookup_pyDictMapAt_ne (fun he => h he.symm)
  · rfl

theorem lookup_agw_foldl_ne {ws : List (String × ℚ)} :
    ∀ {scores : List (String × ℤ)} {k : String}, (∀ w ∈ ws, w.1 ≠ k) →
      List.lookup k (ws.foldl agwStep scores) = List.lookup k scores := by
  induction ws with
  | nil => intro scores k _; rfl
  | cons w rest ih =>
    intro scores k h
    rw [List.foldl_cons]
    rw [ih (fun w2 hw2 => h w2 (List.mem_cons_of_mem _ hw2))]
    exact lookup_agwStep_ne (h w (List.mem_cons_self _ _))

theorem lookup_agwStep_page_speed {acc : List (String × ℤ)} {w : String × ℚ} :
    List.lookup "page_speed" (agwStep acc w) = List.lookup "page_speed" acc := by
  unfold agwStep
  split
  case isTrue hcond => exact lookup_pyDictMapAt_ne (fun he => hcond.2 he.symm)
  case isFalse => rfl

theorem lookup_agw_foldl_page_speed {ws : List (String × ℚ)} :
    ∀ {scores : List (String × ℤ)},
      List.lookup "page_speed" (ws.foldl agwStep scores) = List.lookup "page_speed" scores := by
  induction ws with
  | nil => intro scores; rfl
  | cons w rest ih =>
    intro scores
    rw [List.foldl_cons, ih, lookup_agwStep_page_speed]

theorem lookup_apply_goal_weights_page_speed (scores : List (String × ℤ)) (goal : String) :
    List.lookup "page_speed" (apply_goal_weights scores goal)
      = List.lookup "page_speed" scores := by
  unfold apply_goal_weights
  dsimp only
  split
  · rfl
  · exact lookup_agw_foldl_page_speed

theorem mem_computeScores_none_bounds {sig : PageSignals} {url goal : String}
    {kv : String × ℤ} (h : kv ∈ computeScores sig url goal none) :
    5 ≤ kv.2 ∧ kv.2 ≤ 100 := by
  simp only [computeScores, List.mem_append, List.mem_cons, List.not_mem_nil,
    or_false] at h
  rcases h with h | h | h | h | h | h | h | h | h | h | h | h | h | h | h | h
  · subst h; exact score_conversion_intent_bounds sig goal
  · subst h; exact score_trust_resonance_bounds sig
  · subst h; exact score_mobile_readiness_none_bounds sig
  · subst h; exact score_semantic_authority_bounds sig
  · subst h; exact score_https_ssl_bounds url
  · subst h; exact score_title_tag_bounds sig
  · subst h; exact score_heading_hierarchy_bounds sig
  · subst h; exact score_content_depth_bounds sig
  · subst h; exact score_schema_markup_bounds sig
  · subst h; exact score_readability_bounds sig
  · subst h; exact score_meta_description_bounds sig
  · subst h; exact score_image_alt_text_bounds sig
  · subst h; exact score_internal_links_bounds sig
  · subst h; exact score_keyword_placement_bounds sig
  · subst h; exact score_multimedia_bounds sig
  · subst h; exact score_search_intent_bounds sig goal

theorem mem_computeScores_other_bounds {sig : PageSignals} {url goal : String}
    {ps : Option ℤ} {kv : String × ℤ} (h : kv ∈ computeScores sig url goal ps)
    (hm : kv.1 ≠ "mobile_readiness") (hp : kv.1 ≠ "page_speed") :
    5 ≤ kv.2 ∧ kv.2 ≤ 100 := by
  rcases ps with _ | p
  · exact mem_computeScores_none_bounds h
  · simp only [computeScores, List.mem_append, List.mem_cons, List.not_mem_nil,
      or_false] at h
    rcases h with (h | h | h | h | h | h | h | h | h | h | h | h | h | h | h | h) | h
    · subst h; exact score_conversion_intent_bounds sig goal
    · subst h; exact score_trust_resonance_bounds sig
    · exact absurd (congrArg Prod.fst h) hm
    · subst h; exact score_semantic_authority_bounds sig
    · subst h; exact score_https_ssl_bounds url
    · subst h; exact score_title_tag_bounds sig
    · subst h; exact score_heading_hierarchy_bounds sig
    · subst h; exact score_content_depth_bounds sig
    · subst h; exact score_schema_markup_bounds sig
    · subst h; exact score_readability_bounds sig
    · subst h; exact score_meta_description_bounds sig
    · subst h; exact score_image_alt_text_bounds sig
    · subst h; exact score_internal_links_bounds sig
    · subst h; exact score_keyword_placement_bounds sig
    · subst h; exact score_multimedia_bounds sig
    · subst h; exact score_search_intent_bounds sig goal
    · exact absurd (congrArg Prod.fst h) hp

theorem lookup_computeScores_page_speed (sig : PageSignals) (url goal : String) (p : ℤ) :
    List.lookup "page_speed" (computeScores sig url goal (some p)) = some p := rfl

/-! ## Claims C9, C3, C1 -/

/-- C9: `apply_goal_weights` with a goal that has no weight table returns the
scores unchanged, and for a known goal every dimension absent from that
goal's multiplier table keeps its input value. -/
theorem c9_goal_weights_passthrough :
    (∀ (scores : List (String × ℤ)) (goal : String),
        GOAL_WEIGHTS goal = [] → apply_goal_weights scores goal = scores)
    ∧ ∀ (scores : List (String × ℤ)) (goal key : String),
        (∀ w ∈ GOAL_WEIGHTS goal, w.1 ≠ key) →
        List.lookup key (apply_goal_weights scores goal) = List.lookup key scores := by
  constructor
  · intro scores goal h
    unfold apply_goal_weights
    dsimp only
    rw [if_pos h]
  · intro scores goal key h
    unfold apply_goal_weights
    dsimp only
    split
    · rfl
    · exact lookup_agw_foldl_ne h

/-- Witness for C9 at concrete inputs: the unknown goal `"seo"` passes scores
through, and for the known goal `"cro"` the dimension `"mobile_readiness"`
(absent from the cro table) keeps its value. -/
theorem c9_witness :
    (GOAL_WEIGHTS "seo" = []
      ∧ apply_goal_weights [("conversion_intent", 50)] "seo" = [("conversion_intent", 50)])
    ∧ (∀ w ∈ GOAL_WEIGHTS "cro", w.1 ≠ "mobile_readiness")
    ∧ List.lookup "mobile_readiness" (apply_goal_weights [("mobile_readiness", 42)] "cro")
        = List.lookup "mobile_readiness" [("mobile_readiness", 42)] :=
  ⟨⟨rfl, c9_goal_weights_passthrough.1 [("conversion_intent", 50)] "seo" rfl⟩,
   by decide,
   c9_goal_weights_passthrough.2 [("mobile_readiness", 42)] "cro" "mobile_readiness"
     (by decide)⟩

/-- `min(100, max(5, int(50 * 1.4))) = 70`: the weighted value the
cx-optimization table produces from a mobile-readiness score of 50. -/
theorem cx_mobile_weighted_value : clampScore (pyInt (((50 : ℤ) : ℚ) * 1.4)) = 70 := by
  have hm : (((50 : ℤ) : ℚ)) * 1.4 = 70 := by norm_num
  rw [hm, pyInt_of_nonneg (by norm_num), ratFloor_eq_intFloor]
  norm_num [clampScore]

/-- Counterexample to C3 as stated: the goal `"cx_optimization"` lists
`mobile_readiness` (multiplier 1.4) in its table, and `apply_goal_weights`
changes an externally measured mobile-readiness score of 50 to 70. -/
theorem c3_counterexample :
    ((GOAL_WEIGHTS "cx_optimization").map Prod.fst).contains "mobile_readiness" = true
    ∧ List.lookup "mobile_readiness"
        (computeScores emptyNoContentSignals "https://example.com" "cx_optimization"
          (some 50)) = some 50
    ∧ List.lookup "mobile_readiness"
        (emittedScores emptyNoContentSignals "https://example.com" "cx_optimization"
          (some 50)) = some 70
    ∧ (70 : ℤ) ≠ 50 := by
  refine ⟨by decide, rfl, ?_, by decide⟩
  have hsym : List.lookup "mobile_readiness"
      (emittedScores emptyNoContentSignals "https://example.com" "cx_optimization"
        (some 50)) = some (clampScore (pyInt (((50 : ℤ) : ℚ) * 1.4))) := rfl
  rw [hsym, cx_mobile_weighted_value]

/-- C3 amended: the dimension exempt from goal multipliers is `page_speed`
(the raw external measurement), unchanged for every goal and every score
mapping; `mobile_readiness` is not exempt — when listed in a known goal's
table it is multiplied and re-clamped like any other dimension (for
`cx_optimization` an externally measured 50 becomes 70). -/
theorem c3_amended_page_speed_exempt :
    (∀ (scores : List (String × ℤ)) (goal : String),
        List.lookup "page_speed" (apply_goal_weights scores goal)
          = List.lookup "page_speed" scores)
    ∧ List.lookup "mobile_readiness"
        (apply_goal_weights [("mobile_readiness", 50)] "cx_optimization") = some 70 := by
  refine ⟨lookup_apply_goal_weights_page_speed, ?_⟩
  have hsym : List.lookup "mobile_readiness"
      (apply_goal_weights [("mobile_readiness", 50)] "cx_optimization")
        = some (clampScore (pyInt (((50 : ℤ) : ℚ) * 1.4))) := rfl
  rw [hsym, cx_mobile_weighted_value]

/-- Counterexample to C1 as stated: with an externally measured performance
score of 0 supplied, the emitted score set contains `mobile_readiness = 0`
and `page_speed = 0`, outside `[5,100]`. -/
theorem c1_counterexample :
    List.lookup "mobile_readiness"
      (emittedScores emptyNoContentSignals "https://example.com" "cro" (some 0)) = some 0
    ∧ List.lookup "page_speed"
        (emittedScores emptyNoContentSignals "https://example.com" "cro" (some 0)) = some 0
    ∧ ¬ (5 ≤ (0 : ℤ)) :=
  ⟨by decide, by decide, by decide⟩

/-- C1 amended: when no external performance measurement is supplied, every
emitted score is an integer in `[5,100]` for every input, including the
fully-empty `PageSignals`; for any supplied measurement, every dimension
other than `mobile_readiness` and `page_speed` is in `[5,100]`; but a
supplied measurement becomes the `page_speed` entry verbatim (and the
pre-weighting `mobile_readiness` score verbatim), so those two dimensions
can carry values below 5, including 0. -/
theorem c1_amended_score_bounds :
    (∀ (sig : PageSignals) (url goal : String) (kv : String × ℤ),
        kv ∈ emittedScores sig url goal none → 5 ≤ kv.2 ∧ kv.2 ≤ 100)
    ∧ (∀ (sig : PageSignals) (url goal : String) (ps : Option ℤ) (kv : String × ℤ),
        kv ∈ emittedScores sig url goal ps →
        kv.1 ≠ "mobile_readiness" → kv.1 ≠ "page_speed" → 5 ≤ kv.2 ∧ kv.2 ≤ 100)
    ∧ ∀ (sig : PageSignals) (url goal : String) (p : ℤ),
        List.lookup "page_speed" (emittedScores sig url goal (some p)) = some p
        ∧ List.lookup "mobile_readiness" (computeScores sig url goal (some p)) = some p := by
  refine ⟨?_, ?_, ?_⟩
  · intro sig url goal kv h
    unfold emittedScores at h
    rcases mem_apply_goal_weights h with hb | hmem
    · exact hb
    · exact mem_computeScores_none_bounds hmem
  · intro sig url goal ps kv h hm hp
    unfold emittedScores at h
    rcases mem_apply_goal_weights h with hb | hmem
    · exact hb
    · exact mem_computeScores_other_bounds hmem hm hp
  · intro sig url goal p
    constructor
    · unfold emittedScores
      rw [lookup_apply_goal_weights_page_speed]
      exact lookup_computeScores_page_speed sig url goal p
    · rfl

/-- Witness for C1 at a concrete input: the https-ssl entry emitted for the
empty record under goal `"cro"` is 90, inside `[5,100]`, and a supplied
measurement 50 appears verbatim as `page_speed`. -/
theorem c1_witness :
    (("https_ssl", (90 : ℤ))
        ∈ emittedScores emptyNoContentSignals "https://example.com" "cro" none)
    ∧ (5 ≤ (90 : ℤ) ∧ (90 : ℤ) ≤ 100)
    ∧ List.lookup "page_speed"
        (emittedScores emptyNoContentSignals "https://example.com" "cro" (some 50))
          = some 50 :=
  ⟨by decide,
   c1_amended_score_bounds.1 emptyNoContentSignals "https://example.com" "cro"
     ("https_ssl", 90) (by decide),
   (c1_amended_score_bounds.2.2 emptyNoContentSignals "https://example.com" "cro" 50).1⟩

/-! ## RateLimiter lemmas -/

theorem evict_nil (c : ℚ) : evict [] c = [] := rfl

theorem evict_cons_pos {t c : ℚ} (h : c < t) (l : List ℚ) :
    evict (t :: l) c = t :: evict l c := by
  unfold evict
  rw [List.filter_cons, if_pos (by simpa using h)]

theorem evict_cons_neg {t c : ℚ} (h : ¬ c < t) (l : List ℚ) :
    evict (t :: l) c = evict l c := by
  unfold evict
  rw [List.filter_cons, if_neg (by simpa using h)]

theorem is_allowed_deny_eval {rl : RateLimiter} {key : String} {now : ℚ}
    {t0 : ℚ} {rest : List ℚ}
    (he : evict (rl.store key) (now - rl.window) = t0 :: rest)
    (hc : rl.max_requests ≤ ((t0 :: rest).length : ℤ)) :
    is_allowed rl key now
      = some ((false, pyInt (t0 + rl.window - now) + 1), rl.setStore key (t0 :: rest)) := by
  unfold is_allowed
  rw [he, if_pos hc]

theorem is_allowed_allow_eval {rl : RateLimiter} {key : String} {now : ℚ}
    {l : List ℚ} (he : evict (rl.store key) (now - rl.window) = l)
    (hc : ¬ rl.max_requests ≤ (l.length : ℤ)) :
    is_allowed rl key now = some ((true, 0), rl.setStore key (l ++ [now])) := by
  unfold is_allowed
  rw [he, if_neg hc]

theorem is_allowed_raise_eval {rl : RateLimiter} {key : String} {now : ℚ}
    (he : evict (rl.store key) (now - rl.window) = [])
    (hc : rl.max_requests ≤ 0) :
    is_allowed rl key now = none := by
  unfold is_allowed
  rw [he, if_pos (by simpa using hc)]

theorem callResult_denied {rl : RateLimiter} {key : String} {now : ℚ} {r : ℤ}
    (h : callResult rl key now = some (false, r)) :
    ∃ t0 rest, evict (rl.store key) (now - rl.window) = t0 :: rest ∧
      rl.max_requests ≤ ((t0 :: rest).length : ℤ) ∧
      r = pyInt (t0 + rl.window - now) + 1 ∧
      callState rl key now = rl.setStore key (t0 :: rest) := by
  unfold callResult is_allowed at h
  split at h
  case isTrue hc =>
    split at h
    case h_1 => simp at h
    case h_2 t0 rest heq =>
      simp only [Option.map_some'] at h
      obtain ⟨-, hr⟩ := Prod.mk.injEq .. ▸ Option.some.injEq .. ▸ h
      refine ⟨t0, rest, heq, heq ▸ hc, hr.symm, ?_⟩
      unfold callState
      rw [is_allowed_deny_eval heq (heq ▸ hc)]
      rfl
  case isFalse hc =>
    simp at h

theorem callResult_allowed {rl : RateLimiter} {key : String} {now : ℚ} {r : ℤ}
    (h : callResult rl key now = some (true, r)) :
    ¬ rl.max_requests ≤ ((evict (rl.store key) (now - rl.window)).length : ℤ) ∧ r = 0 := by
  unfold callResult is_allowed at h
  split at h
  case isTrue hc =>
    split at h
    case h_1 => simp at h
    case h_2 => simp at h
  case isFalse hc =>
    simp only [Option.map_some'] at h
    obtain ⟨-, hr⟩ := Prod.mk.injEq .. ▸ Option.some.injEq .. ▸ h
    exact ⟨hc, hr.symm⟩

/-! ## Claim C2 -/

/-- Counterexample to C2 as stated: with `max_requests = 0` and no stored
timestamps for the key, `is_allowed` raises `IndexError` on
`self._store[key][0]` (modelled as `none`) instead of returning
`allowed=false`. -/
theorem c2_counterexample :
    (initRL 0 60).max_requests ≤ 0 ∧ callResult (initRL 0 60) "k" 0 = none :=
  ⟨by decide, by decide⟩

/-- C2 amended: `is_allowed` never raises when `max_requests ≥ 1` (for any
key, any stored state, any time); when `max_requests ≤ 0` no call is ever
admitted — but a call finding no surviving timestamp for its key raises
`IndexError` instead of returning a denial. -/
theorem c2_amended_no_raise :
    (∀ (rl : RateLimiter) (key : String) (now : ℚ),
        1 ≤ rl.max_requests → (callResult rl key now).isSome = true)
    ∧ ∀ (rl : RateLimiter) (key : String) (now : ℚ) (r : ℤ),
        rl.max_requests ≤ 0 → callResult rl key now ≠ some (true, r) := by
  constructor
  · intro rl key now h1
    unfold callResult is_allowed
    split
    case isTrue hc =>
      split
      case h_1 heq =>
        rw [heq] at hc
        simp at hc
        exact absurd hc (by omega)
      case h_2 => simp
    case isFalse => simp
  · intro rl key now r h0 hcon
    exact absurd ((callResult_allowed hcon).1)
      (fun hc => hc (h0.trans (Int.natCast_nonneg _)))

/-- Witness for C2: a fresh limiter with `max_requests = 1` returns a result
on its first call, and a limiter with `max_requests = 0` and one surviving
timestamp never admits. -/
theorem c2_witness :
    (1 ≤ (initRL 1 60).max_requests ∧ (callResult (initRL 1 60) "a" 0).isSome = true)
    ∧ rlC2.max_requests ≤ 0 ∧ callResult rlC2 "a" 1 ≠ some (true, 0) :=
  ⟨⟨by decide, c2_amended_no_raise.1 (initRL 1 60) "a" 0 (by decide)⟩,
   by decide, c2_amended_no_raise.2 rlC2 "a" 1 0 (by decide)⟩

/-! ## Claim C5 -/

theorem rlC5c_call : callResult rlC5c "k" 30 = some (false, 31) := by
  have he : evict (rlC5c.store "k") (30 - rlC5c.window) = [(0 : ℚ)] := by
    show evict [(0 : ℚ)] ((30 : ℚ) - 60) = [(0 : ℚ)]
    rw [evict_cons_pos (by norm_num : (30 : ℚ) - 60 < 0) [], evict_nil]
  unfold callResult
  rw [is_allowed_deny_eval he (by decide), Option.map_some']
  show some (false, pyInt ((0 : ℚ) + rlC5c.window - 30) + 1) = some (false, 31)
  have hv : (0 : ℚ) + rlC5c.window - 30 = ((30 : ℤ) : ℚ) := by
    show (0 : ℚ) + 60 - 30 = ((30 : ℤ) : ℚ)
    norm_num
  rw [hv, pyInt_of_nonneg (by norm_num), ratFloor_eq_intFloor, Int.floor_intCast]
  norm_num

/-- Counterexample to C5 as stated: a denial whose
`oldest_surviving_timestamp + window − now` is the exact integer 30 returns
`retry_after = 31`, while the spec formula `max(ceil(...), 1)` gives 30. -/
theorem c5_counterexample :
    callResult rlC5c "k" 30 = some (false, 31)
    ∧ (evict (rlC5c.store "k") (30 - rlC5c.window)).head? = some 0
    ∧ spec_retry_after 0 rlC5c.window 30 = 30
    ∧ (31 : ℤ) ≠ 30 := by
  have he : evict (rlC5c.store "k") (30 - rlC5c.window) = [(0 : ℚ)] := by
    show evict [(0 : ℚ)] ((30 : ℚ) - 60) = [(0 : ℚ)]
    rw [evict_cons_pos (by norm_num : (30 : ℚ) - 60 < 0) [], evict_nil]
  refine ⟨rlC5c_call, by rw [he]; rfl, ?_, by decide⟩
  unfold spec_retry_after ratCeil
  have hv : (0 : ℚ) + rlC5c.window - 30 = ((30 : ℤ) : ℚ) := by
    show (0 : ℚ) + 60 - 30 = ((30 : ℤ) : ℚ)
    norm_num
  rw [hv, show (-((30 : ℤ) : ℚ)) = (((-30 : ℤ)) : ℚ) by norm_num,
    ratFloor_eq_intFloor, Int.floor_intCast]
  norm_num

/-- C5 amended: whenever `is_allowed` denies a call, the returned
`retry_after` equals `floor(oldest_surviving_timestamp + window − now) + 1`
(the code computes `int(...) + 1` on a positive argument); it is always at
least 1, and it coincides with the spec formula
`ceil(oldest_surviving_timestamp + window − now)` exactly when that quantity
is not an integer — when it is an integer, the code returns one more than
the spec formula. -/
theorem c5_amended_retry_after :
    ∀ (rl : RateLimiter) (key : String) (now : ℚ) (r : ℤ),
      callResult rl key now = some (false, r) →
      ∃ t0, (evict (rl.store key) (now - rl.window)).head? = some t0 ∧
        now - rl.window < t0 ∧
        r = Rat.floor (t0 + rl.window - now) + 1 ∧
        1 ≤ r ∧
        ((∃ n : ℤ, t0 + rl.window - now = (n : ℚ)) ∨ r = ratCeil (t0 + rl.window - now)) := by
  intro rl key now r h
  obtain ⟨t0, rest, heq, hlen, hr, hst⟩ := callResult_denied h
  have ht0 : t0 ∈ evict (rl.store key) (now - rl.window) := by
    rw [heq]; exact List.mem_cons_self _ _
  have ht0p : now - rl.window < t0 := by
    unfold evict at ht0
    exact of_decide_eq_true (List.mem_filter.mp ht0).2
  have hx : (0 : ℚ) ≤ t0 + rl.window - now := by linarith
  have hfl : pyInt (t0 + rl.window - now) = Rat.floor (t0 + rl.window - now) :=
    pyInt_of_nonneg hx
  have h1r : 1 ≤ r := by
    rw [hr, hfl]
    have := ratFloor_nonneg hx
    omega
  refine ⟨t0, by rw [heq]; rfl, ht0p, by rw [hr, hfl], h1r, ?_⟩
  by_cases hint : ∃ n : ℤ, t0 + rl.window - now = (n : ℚ)
  · exact Or.inl hint
  · right
    push_neg at hint
    unfold ratCeil
    rw [ratFloor_neg_of_not_int hint, hr, hfl]
    omega

/-- Witness for C5: a denial whose surviving timestamp is `1/2` (so the
quantity `1/2 + 60 − 30` is not an integer) returns `retry_after = 31`,
matching both `floor + 1` and the ceiling. -/
theorem c5_witness :
    callResult rlC5w "k" 30 = some (false, 31)
    ∧ ∃ t0, (evict (rlC5w.store "k") (30 - rlC5w.window)).head? = some t0 ∧
        30 - rlC5w.window < t0 ∧
        (31 : ℤ) = Rat.floor (t0 + rlC5w.window - 30) + 1 ∧
        (1 : ℤ) ≤ 31 ∧
        ((∃ n : ℤ, t0 + rlC5w.window - 30 = (n : ℚ)) ∨ (31 : ℤ) = ratCeil (t0 + rlC5w.window - 30)) := by
  have he : evict (rlC5w.store "k") (30 - rlC5w.window) = [(1/2 : ℚ)] := by
    show evict [(1/2 : ℚ)] ((30 : ℚ) - 60) = [(1/2 : ℚ)]
    rw [evict_cons_pos (by norm_num : (30 : ℚ) - 60 < 1/2) [], evict_nil]
  have hcall : callResult rlC5w "k" 30 = some (false, 31) := by
    unfold callResult
    rw [is_allowed_deny_eval he (by decide), Option.map_some']
    show some (false, pyInt ((1/2 : ℚ) + rlC5w.window - 30) + 1) = some (false, 31)
    have hv : (1/2 : ℚ) + rlC5w.window - 30 = (61/2 : ℚ) := by
      show (1/2 : ℚ) + 60 - 30 = (61/2 : ℚ)
      norm_num
    rw [hv, pyInt_of_nonneg (by norm_num), ratFloor_eq_intFloor,
      show ⌊(61/2 : ℚ)⌋ = 30 from by norm_num]
    norm_num
  exact ⟨hcall, c5_amended_retry_after rlC5w "k" 30 31 hcall⟩

/-! ## Claim C4: sliding-window admission bound -/

theorem mem_evict_gt {l : List ℚ} {c t : ℚ} (h : t ∈ evict l c) : c < t := by
  unfold evict at h
  exact of_decide_eq_true (List.mem_filter.mp h).2

theorem denied_retry_ge_one {rl : RateLimiter} {key : String} {now : ℚ} {r : ℤ}
    (h : callResult rl key now = some (false, r)) : 1 ≤ r := by
  obtain ⟨t0, rest, heq, hlen, hr, -⟩ := callResult_denied h
  have ht0 : t0 ∈ evict (rl.store key) (now - rl.window) := by
    rw [heq]; exact List.mem_cons_self _ _
  have ht0p := mem_evict_gt ht0
  have hx : (0 : ℚ) ≤ t0 + rl.window - now := by linarith
  rw [hr, pyInt_of_nonneg hx]
  have := ratFloor_nonneg hx
  omega

theorem retry_after_wait_admitted {rl : RateLimiter} {key : String} {now : ℚ} {r : ℤ}
    (h : callResult rl key now = some (false, r))
    (hlen : (((callState rl key now).store key).length : ℤ) ≤ rl.max_requests) :
    callResult (callState rl key now) key (now + (r : ℚ)) = some (true, 0) := by
  obtain ⟨t0, rest, heq, hc, hr, hst⟩ := callResult_denied h
  have hstore : (callState rl key now).store key = t0 :: rest := by
    rw [hst]; unfold RateLimiter.setStore; simp
  have hw : (callState rl key now).window = rl.window := by rw [hst]; rfl
  have hm : (callState rl key now).max_requests = rl.max_requests := by rw [hst]; rfl
  have ht0 : t0 ∈ evict (rl.store key) (now - rl.window) := by
    rw [heq]; exact List.mem_cons_self _ _
  have ht0p := mem_evict_gt ht0
  have hx : (0 : ℚ) ≤ t0 + rl.window - now := by linarith
  have hrq : t0 + rl.window - now < (r : ℚ) := by
    rw [hr, pyInt_of_nonneg hx]
    push_cast
    have := lt_ratFloor_add_one (t0 + rl.window - now)
    linarith
  have ht0cut : ¬ (now + (r : ℚ) - (callState rl key now).window < t0) := by
    rw [hw]
    push_neg
    linarith
  have heq2 : evict ((callState rl key now).store key)
      (now + (r : ℚ) - (callState rl key now).window)
        = evict rest (now + (r : ℚ) - (callState rl key now).window) := by
    rw [hstore, evict_cons_neg ht0cut]
  have hlen2 : ¬ (callState rl key now).max_requests
      ≤ ((evict rest (now + (r : ℚ) - (callState rl key now).window)).length : ℤ) := by
    rw [hm]
    have h1 : (evict rest (now + (r : ℚ) - (callState rl key now).window)).length
        ≤ rest.length := List.length_filter_le _ _
    rw [hstore] at hlen
    simp only [List.length_cons] at hlen
    push_cast at hlen ⊢
    omega
  unfold callResult
  rw [is_allowed_allow_eval heq2 hlen2]
  rfl

theorem is_allowed_some_fields {rl : RateLimiter} {key : String} {now : ℚ}
    {br : Bool × ℤ} {rl2 : RateLimiter} (h : is_allowed rl key now = some (br, rl2)) :
    rl2.max_requests = rl.max_requests ∧ rl2.window = rl.window
      ∧ ∀ k, k ≠ key → rl2.store k = rl.store k := by
  unfold is_allowed at h
  split at h
  · split at h
    · exact absurd h (by simp)
    · simp only [Option.some.injEq, Prod.mk.injEq] at h
      obtain ⟨-, hrl⟩ := h
      subst hrl
      refine ⟨rfl, rfl, fun k hk => ?_⟩
      unfold RateLimiter.setStore
      simp [hk]
  · simp only [Option.some.injEq, Prod.mk.injEq] at h
    obtain ⟨-, hrl⟩ := h
    subst hrl
    refine ⟨rfl, rfl, fun k hk => ?_⟩
    unfold RateLimiter.setStore
    simp [hk]

theorem runCalls_window_bound (k : String) (N : ℤ) (W : ℚ) (hW : 0 < W) :
    ∀ (cs : List (String × ℚ)) (rl : RateLimiter) (adm : List ℚ) (lastc : ℚ),
      rl.max_requests = N → rl.window = W →
      rl.store k = adm.filter (fun a => decide (lastc - W < a)) →
      (∀ p ∈ cs, lastc ≤ p.2) →
      List.Pairwise (· ≤ ·) (cs.map Prod.snd) →
      (∀ T : ℚ, ((adm.countP (fun a => decide (T - W < a ∧ a ≤ T)) : ℕ) : ℤ) ≤ max N 0) →
      ∀ T : ℚ, (((adm ++ admittedFor k (runCalls rl cs).2).countP
          (fun a => decide (T - W < a ∧ a ≤ T)) : ℕ) : ℤ) ≤ max N 0 := by
  intro cs
  induction cs with
  | nil =>
    intro rl adm lastc hN hWd hstore hle hpw hadm T
    simpa [runCalls, admittedFor] using hadm T
  | cons c rest ih =>
    obtain ⟨k1, t⟩ := c
    intro rl adm lastc hN hWd hstore hle hpw hadm T
    rw [List.map_cons, List.pairwise_cons] at hpw
    obtain ⟨hpw1, hpw2⟩ := hpw
    cases hia : is_allowed rl k1 t with
    | none =>
      simp only [runCalls, hia]
      simpa [admittedFor] using hadm T
    | some pr =>
      obtain ⟨br, rl2⟩ := pr
      obtain ⟨hm2, hw2, hso⟩ := is_allowed_some_fields hia
      have hrun : (runCalls rl ((k1, t) :: rest)).2
          = (k1, t, br.1) :: (runCalls rl2 rest).2 := by
        simp [runCalls, hia]
      rw [hrun]
      have hle2 : ∀ p ∈ rest, t ≤ p.2 :=
        fun p hp => hpw1 p.2 (List.mem_map_of_mem _ hp)
      by_cases hk : k1 = k
      · subst hk
        have hlastc : lastc ≤ t := hle (k1, t) (List.mem_cons_self _ _)
        have hsurv : evict (rl.store k1) (t - rl.window)
            = adm.filter (fun a => decide (t - W < a)) := by
          rw [hstore, hWd]
          unfold evict
          rw [List.filter_filter]
          refine List.filter_congr (fun a _ => ?_)
          by_cases h1 : t - W < a
          · have h2 : lastc - W < a := by linarith
            simp [h1, h2]
          · simp [h1]
        unfold is_allowed at hia
        split at hia
        · rename_i hcond
          split at hia
          · exact absurd hia (by simp)
          · rename_i t0 rest2 heq2
            simp only [Option.some.injEq, Prod.mk.injEq] at hia
            obtain ⟨hbr, hrl2⟩ := hia
            have hb1 : br.1 = false := by rw [← hbr]
            have hadmf : admittedFor k1 ((k1, t, br.1) :: (runCalls rl2 rest).2)
                = admittedFor k1 (runCalls rl2 rest).2 := by
              simp [admittedFor, hb1]
            rw [hadmf]
            refine ih rl2 adm t (by rw [← hrl2]; exact hN) (by rw [← hrl2]; exact hWd)
              ?_ hle2 hpw2 hadm T
            rw [← hrl2]
            show (rl.setStore k1 (t0 :: rest2)).store k1 = _
            unfold RateLimiter.setStore
            simp only [if_pos rfl]
            rw [← heq2]
            exact hsurv
        · rename_i hcond
          simp only [Option.some.injEq, Prod.mk.injEq] at hia
          obtain ⟨hbr, hrl2⟩ := hia
          have hb1 : br.1 = true := by rw [← hbr]
          have hadmf : admittedFor k1 ((k1, t, br.1) :: (runCalls rl2 rest).2)
              = t :: admittedFor k1 (runCalls rl2 rest).2 := by
            simp [admittedFor, hb1]
          rw [hadmf]
          have hlen : ¬ N ≤ ((adm.filter (fun a => decide (t - W < a))).length : ℤ) := by
            rw [← hsurv, ← hN]
            exact hcond
          have hstep := ih rl2 (adm ++ [t]) t (by rw [← hrl2]; exact hN)
            (by rw [← hrl2]; exact hWd) ?_ hle2 hpw2 ?_ T
          · rw [show adm ++ t :: admittedFor k1 (runCalls rl2 rest).2
                = (adm ++ [t]) ++ admittedFor k1 (runCalls rl2 rest).2 by simp]
            exact hstep
          · rw [← hrl2]
            show (rl.setStore k1 (evict (rl.store k1) (t - rl.window) ++ [t])).store k1 = _
            unfold RateLimiter.setStore
            simp only [if_pos rfl]
            rw [hsurv, List.filter_append]
            congr 1
            simp [show t - W < t by linarith]
          · intro T2
            rw [List.countP_append]
            by_cases hT2 : T2 - W < t ∧ t ≤ T2
            · have hcnt1 : adm.countP (fun a => decide (T2 - W < a ∧ a ≤ T2))
                  ≤ adm.countP (fun a => decide (t - W < a)) := by
                refine countP_le_countP (fun a _ hpa => ?_)
                have hpa2 := of_decide_eq_true hpa
                refine decide_eq_true ?_
                obtain ⟨hl, hr2⟩ := hT2
                linarith [hpa2.1, hpa2.2]
              have hflt : adm.countP (fun a => decide (t - W < a))
                  = (adm.filter (fun a => decide (t - W < a))).length :=
                List.countP_eq_length_filter _ _
              have hcnt2 : [t].countP (fun a => decide (T2 - W < a ∧ a ≤ T2)) = 1 := by
                simp [hT2]
              rw [hcnt2]
              push_cast
              rw [hflt] at hcnt1
              have hNle : N ≤ max N 0 := le_max_left _ _
              push_cast at hlen
              omega
            · have hcnt2 : [t].countP (fun a => decide (T2 - W < a ∧ a ≤ T2)) = 0 := by
                simp only [List.countP_cons, List.countP_nil]
                rw [if_neg (by simpa using hT2)]
              rw [hcnt2]
              simpa using hadm T2
      · have hadmf : admittedFor k ((k1, t, br.1) :: (runCalls rl2 rest).2)
            = admittedFor k (runCalls rl2 rest).2 := by
          simp [admittedFor, hk]
        rw [hadmf]
        exact ih rl2 adm lastc (by rw [hm2]; exact hN) (by rw [hw2]; exact hWd)
          (by rw [hso k (fun he => hk he.symm)]; exact hstore)
          (fun p hp => hle p (List.mem_cons_of_mem _ hp)) hpw2 hadm T

theorem sliding_window_count_bound :
    ∀ (N : ℤ) (W : ℚ) (cs : List (String × ℚ)) (k : String) (T : ℚ),
      1 ≤ N → 0 < W → List.Pairwise (· ≤ ·) (cs.map Prod.snd) →
      ((admittedFor k (runCalls (initRL N W) cs).2).countP
          (fun a => decide (T - W < a ∧ a ≤ T)) : ℤ) ≤ N := by
  intro N W cs k T hN hW hpw
  have hmax : max N 0 = N := max_eq_left (by omega)
  cases cs with
  | nil =>
    simp only [runCalls, admittedFor, List.filterMap_nil, List.countP_nil]
    omega
  | cons c rest =>
    obtain ⟨k0, t0⟩ := c
    rw [List.map_cons, List.pairwise_cons] at hpw
    obtain ⟨hpw1, hpw2⟩ := hpw
    have hle : ∀ p ∈ (k0, t0) :: rest, t0 ≤ p.2 := by
      intro p hp
      rcases List.mem_cons.mp hp with h | h
      · rw [h]
      · exact hpw1 p.2 (List.mem_map_of_mem _ h)
    have hmain := runCalls_window_bound k N W hW ((k0, t0) :: rest) (initRL N W) [] t0
      rfl rfl rfl hle (by rw [List.map_cons, List.pairwise_cons]; exact ⟨hpw1, hpw2⟩)
      (by intro T2; simp) T
    rw [hmax] at hmain
    simpa using hmain

/-- C4: (1) starting from a fresh limiter with `max_requests = N ≥ 1` and
`window = W > 0`, for every key and every trailing window `(T−W, T]`, at most
N calls are admitted among any time-ordered call sequence; (2) every denied
call returns `retry_after ≥ 1`; (3) a call for the same key made exactly
`retry_after` seconds after a denial (with no intervening call for that key,
and the per-key store within its capacity) is admitted. -/
theorem c4_sliding_window :
    (∀ (N : ℤ) (W : ℚ) (cs : List (String × ℚ)) (k : String) (T : ℚ),
        1 ≤ N → 0 < W → List.Pairwise (· ≤ ·) (cs.map Prod.snd) →
        ((admittedFor k (runCalls (initRL N W) cs).2).countP
            (fun a => decide (T - W < a ∧ a ≤ T)) : ℤ) ≤ N)
    ∧ (∀ (rl : RateLimiter) (key : String) (now : ℚ) (r : ℤ),
        callResult rl key now = some (false, r) → 1 ≤ r)
    ∧ ∀ (rl : RateLimiter) (key : String) (now : ℚ) (r : ℤ),
        callResult rl key now = some (false, r) →
        (((callState rl key now).store key).length : ℤ) ≤ rl.max_requests →
        callResult (callState rl key now) key (now + (r : ℚ)) = some (true, 0) :=
  ⟨sliding_window_count_bound,
   fun _ _ _ _ h => denied_retry_ge_one h,
   fun _ _ _ _ h hlen => retry_after_wait_admitted h hlen⟩

theorem rlC4w_call : callResult rlC4w "k" 9 = some (false, 7) := by
  have he : evict (rlC4w.store "k") (9 - rlC4w.window) = [(5 : ℚ)] := by
    show evict [(5 : ℚ)] ((9 : ℚ) - 10) = [(5 : ℚ)]
    rw [evict_cons_pos (by norm_num : (9 : ℚ) - 10 < 5) [], evict_nil]
  unfold callResult
  rw [is_allowed_deny_eval he (by decide), Option.map_some']
  show some (false, pyInt ((5 : ℚ) + rlC4w.window - 9) + 1) = some (false, 7)
  have hv : (5 : ℚ) + rlC4w.window - 9 = ((6 : ℤ) : ℚ) := by
    show (5 : ℚ) + 10 - 9 = ((6 : ℤ) : ℚ)
    norm_num
  rw [hv, pyInt_of_nonneg (by norm_num), ratFloor_eq_intFloor, Int.floor_intCast]
  norm_num

/-- Witness for C4 at concrete inputs: a two-call trace under
`max_requests = 1, window = 10` admits at most one call in the trailing
window ending at 5; a denial at time 9 with one stored timestamp at 5
returns `retry_after = 7 ≥ 1`; and the retry at time 16 is admitted. -/
theorem c4_witness :
    (((admittedFor "k" (runCalls (initRL 1 10) [("k", 0), ("k", 5)]).2).countP
        (fun a => decide ((5 : ℚ) - 10 < a ∧ a ≤ 5)) : ℤ) ≤ 1)
    ∧ callResult rlC4w "k" 9 = some (false, 7)
    ∧ (1 : ℤ) ≤ 7
    ∧ callResult (callState rlC4w "k" 9) "k" (9 + ((7 : ℤ) : ℚ)) = some (true, 0) := by
  refine ⟨c4_sliding_window.1 1 10 [("k", 0), ("k", 5)] "k" 5 (by decide) (by decide)
    (by decide), rlC4w_call, c4_sliding_window.2.1 rlC4w "k" 9 7 rlC4w_call, ?_⟩
  have hst : callState rlC4w "k" 9 = rlC4w.setStore "k" [(5 : ℚ)] := by
    have he : evict (rlC4w.store "k") (9 - rlC4w.window) = [(5 : ℚ)] := by
      show evict [(5 : ℚ)] ((9 : ℚ) - 10) = [(5 : ℚ)]
      rw [evict_cons_pos (by norm_num : (9 : ℚ) - 10 < 5) [], evict_nil]
    unfold callState
    rw [is_allowed_deny_eval he (by decide)]
    rfl
  have hlen : (((callState rlC4w "k" 9).store "k").length : ℤ) ≤ rlC4w.max_requests := by
    rw [hst]
    decide
  exact c4_sliding_window.2.2 rlC4w "k" 9 7 rlC4w_call hlen

/-! ## C6, C7, C10: signal extraction -/

/-- C6: `extract_signals` selects the representation with the larger word
count: (1) when the HTML representation is non-empty and strictly richer in
words than the Jina content, the returned signals are the ones parsed from
the HTML; (2) in every other case where at least one representation is
present, the Jina branch is used; (3) when both representations are empty,
the result equals the defined empty `PageSignals` (heading sentinel
`"No Content"`). -/
theorem c6_reconciliation :
    (∀ (ph : String → Soup) (j : Option JinaData) (h : String),
        h ≠ "" → wordCount (jinaContentOf j) < wordCount h →
        extract_signals ph j h = signals_from_html_soup (ph h))
    ∧ (∀ (ph : String → Soup) (j : Option JinaData) (h : String),
        ¬(j = none ∧ h = "") →
        ¬(h ≠ "" ∧ wordCount (jinaContentOf j) < wordCount h) →
        extract_signals ph j h = jinaSignals (j.getD JinaData.empty))
    ∧ (∀ ph : String → Soup, extract_signals ph none "" = emptyNoContentSignals) := by
  refine ⟨?_, ?_, ?_⟩
  · intro ph j h hne hlt
    unfold extract_signals
    rw [if_neg (fun hc => hne hc.2), if_pos ⟨hne, hlt⟩]
    rfl
  · intro ph j h h1 h2
    unfold extract_signals
    rw [if_neg h1, if_neg h2]
  · intro ph
    unfold extract_signals
    rw [if_pos ⟨rfl, rfl⟩]

/-- Witness for C6 at concrete inputs: an eight-word HTML document beats the
seven-word Jina payload `jC7`; a two-word HTML document loses to it; and two
empty representations produce the defined empty record. -/
theorem c6_witness :
    extract_signals phDefault (some jC7) "a b c d e f g h"
      = signals_from_html_soup soupDefault
    ∧ extract_signals phDefault (some jC7) "a b" = jinaSignals jC7
    ∧ extract_signals phDefault none "" = emptyNoContentSignals := by
  refine ⟨?_, ?_, ?_⟩
  · exact c6_reconciliation.1 phDefault (some jC7) "a b c d e f g h" (by decide) (by decide)
  · exact c6_reconciliation.2.1 phDefault (some jC7) "a b"
      (fun hc => Option.noConfusion hc.1) (by decide)
  · exact c6_reconciliation.2.2 phDefault

/-- Counterexample to C7 as stated: the Jina payload `jC7` declares the
three-character title `"abc"` (not longer than 5 characters after trimming)
and carries the primary heading `"My Heading"`, yet the extracted title
signal keeps `"abc"` and does not fall back to the heading. -/
theorem c7_counterexample :
    (extract_signals phDefault (some jC7) "").title = "abc"
    ∧ pyLen (pyStrip "abc") ≤ 5
    ∧ (extract_signals phDefault (some jC7) "").h1 = "My Heading"
    ∧ ("abc" : String) ≠ "My Heading" := by
  refine ⟨?_, by decide, ?_, by decide⟩ <;> decide

/-- C7 amended: on the Jina branch, the title signal equals the declared
title (truncated to 120 characters and trimmed) whenever that trimmed value
is non-empty, regardless of its length; only when it is empty does it fall
back to the primary heading (or to `""` when the heading is the
`"No H1 Found"` sentinel).  On the HTML branch, the title signal is the
`<title>` text truncated to 120 characters when the tag is present, else the
primary heading; no 5-character threshold exists on either branch. -/
theorem c7_amended_title :
    (∀ j : JinaData, jinaTitleRaw j ≠ "" → (jinaSignals j).title = jinaTitleRaw j)
    ∧ (∀ j : JinaData, jinaTitleRaw j = "" →
        (jinaSignals j).title = (if jinaH1 j ≠ "No H1 Found" then jinaH1 j else ""))
    ∧ (∀ (s : Soup) (t : String), s.titleText = some t →
        (signals_from_html_soup s).title = pyTake t 120)
    ∧ (∀ s : Soup, s.titleText = none → (signals_from_html_soup s).title = htmlH1 s) := by
  refine ⟨?_, ?_, ?_, ?_⟩
  · intro j hne
    show jinaTitle j = jinaTitleRaw j
    unfold jinaTitle
    rw [if_neg hne]
  · intro j he
    show jinaTitle j = _
    unfold jinaTitle
    rw [if_pos he]
  · intro s t ht
    show htmlTitle s = pyTake t 120
    unfold htmlTitle
    rw [ht]
  · intro s ht
    show htmlTitle s = htmlH1 s
    unfold htmlTitle
    rw [ht]

/-- Witness for C7 at concrete inputs: `jC7` keeps its three-character
declared title; the empty payload falls back; a document with a `<title>`
tag uses it; one without falls back to the heading. -/
theorem c7_witness :
    (jinaSignals jC7).title = jinaTitleRaw jC7
    ∧ (jinaSignals JinaData.empty).title =
        (if jinaH1 JinaData.empty ≠ "No H1 Found" then jinaH1 JinaData.empty else "")
    ∧ (signals_from_html_soup soupTitled).title = pyTake "A Fine Landing Page" 120
    ∧ (signals_from_html_soup soupDefault).title = htmlH1 soupDefault :=
  ⟨c7_amended_title.1 jC7 (by decide),
   c7_amended_title.2.1 JinaData.empty (by decide),
   c7_amended_title.2.2.1 soupTitled "A Fine Landing Page" rfl,
   c7_amended_title.2.2.2 soupDefault rfl⟩

/-- C10: the empty `PageSignals` produced when both fetch strategies return
nothing is not fully empty: it has `has_viewport = true` with
`viewport_content = "width=device-width, initial-scale=1"`, and with no
external performance measurement `score_mobile_readiness` on this no-content
record returns 95 (50 + 20 + 15 + 10, clamped to 95). -/
theorem c10_empty_signals_mobile :
    ∀ ph : String → Soup,
      (extract_signals ph none "").has_viewport = true
      ∧ (extract_signals ph none "").viewport_content
          = "width=device-width, initial-scale=1"
      ∧ score_mobile_readiness (extract_signals ph none "") none = 95 := by
  intro ph
  have he : extract_signals ph none "" = emptyNoContentSignals := by
    unfold extract_signals
    rw [if_pos ⟨rfl, rfl⟩]
  rw [he]
  refine ⟨rfl, rfl, by decide⟩

/-! ## C8: the result stream -/

/-- Counterexample to C8 as stated: when the first narrative attempt raises
and the second parses to the empty JSON object `\x7b\x7d` (a parseable
result, but a falsy dict), the stream emits an error record and no
ai_narrative record. -/
theorem c8_counterexample :
    stream_records [] none (some ⟨true, false⟩)
      = [StreamRecord.metrics [], StreamRecord.error]
    ∧ StreamRecord.ai_narrative ∉ stream_records [] none (some ⟨true, false⟩) := by
  exact ⟨rfl, by decide⟩

/-- C8 amended: the stream always emits the metrics record first and then
exactly one further record — an ai_narrative record when some attempt yields
a truthy, parseable JSON dict (attempt 1 if it qualifies, else attempt 2),
and a single error record otherwise (also when an attempt parses to a falsy
or non-dict value).  In scenario D (attempt 1 unparseable, attempt 2 a valid
truthy dict) exactly one ai_narrative record and no error record is
emitted. -/
theorem c8_amended_stream :
    (∀ (scores : List (String × ℤ)) (a1 a2 : Option PyVal),
        stream_records scores a1 a2
          = [StreamRecord.metrics scores,
             if finalNarrativeOk a1 a2 then StreamRecord.ai_narrative
             else StreamRecord.error])
    ∧ (∀ scores : List (String × ℤ),
        stream_records scores none (some ⟨true, true⟩)
          = [StreamRecord.metrics scores, StreamRecord.ai_narrative]) := by
  constructor
  · intro scores a1 a2
    cases a1 with
    | none =>
      cases a2 with
      | none => rfl
      | some w =>
        rcases w with ⟨d, t⟩
        cases d <;> cases t <;> rfl
    | some v =>
      rcases v with ⟨d1, t1⟩
      cases a2 with
      | none => cases d1 <;> cases t1 <;> rfl
      | some w =>
        rcases w with ⟨d2, t2⟩
        cases d1 <;> cases t1 <;> cases d2 <;> cases t2 <;> rfl
  · intro scores
    rfl
